import Mathlib

/-!
Shallow embedding of the background job-processing worker
(worker/src/index.ts): configuration resolution, the error taxonomy and
the normalizing wrapper, the stalled-job recovery scan, the main polling
loop, and the process lifecycle handlers.  Store responses and
JobProcessor outcomes are passed in as explicit oracle values; each
worker function is embedded as a pure function from those oracles to the
list of observable events it performs (store calls, JobProcessor calls,
sleeps, error logs) together with the error, if any, that it propagates
to its caller.
-/

/-! ### Configuration resolution (lines 27-51 of the source) -/

/-- The per-process worker configuration record (interface WorkerConfig).
Durations are integers (milliseconds); JS parseInt can yield negative
values, hence Int rather than Nat. -/
structure WorkerConfig where
  id : String
  pollingInterval : Int
  stalledJobTimeout : Int
  circuitBreakerResetTimeout : Int
  retryDelay : Int
deriving DecidableEq, Repr

/-- DEFAULT_CONFIG from the source. -/
def DEFAULT_CONFIG : WorkerConfig :=
  ⟨"worker1", 15000, 60000, 15000, 15000⟩

/-- The environment variables the module reads. `none` models an unset
variable; `some s` a variable set to the string s. -/
structure Env where
  workerIdVar : Option String
  pollingIntervalVar : Option String
  stalledJobTimeoutVar : Option String
  circuitBreakerResetTimeoutVar : Option String
  retryDelayVar : Option String
  supabaseUrlVar : Option String
  supabaseKeyVar : Option String

/-- JS whitespace characters skipped by parseInt. -/
def isJsWhitespace (c : Char) : Bool :=
  c == ' ' || c == '\t' || c == '\n' || c == '\r' || c == '\x0B' || c == '\x0C'

/-- Value of a character as a digit in the given radix, as in JS parseInt. -/
def digitValueAt (radix : Nat) (c : Char) : Option Nat :=
  let v : Option Nat :=
    if '0' ≤ c ∧ c ≤ '9' then some (c.toNat - '0'.toNat)
    else if 'a' ≤ c ∧ c ≤ 'z' then some (c.toNat - 'a'.toNat + 10)
    else if 'A' ≤ c ∧ c ≤ 'Z' then some (c.toNat - 'A'.toNat + 10)
    else none
  match v with
  | some n => if n < radix then some n else none
  | none => none

/-- Accumulate the maximal leading run of digits, as JS parseInt does:
parsing stops at the first non-digit; if no digit was seen the result is
NaN (modelled as `none`). -/
def parseDigits (radix : Nat) : List Char → Nat → Bool → Option Nat
  | [], acc, seen => if seen then some acc else none
  | c :: rest, acc, seen =>
    match digitValueAt radix c with
    | some d => parseDigits radix rest (acc * radix + d) true
    | none => if seen then some acc else none

/-- JS `parseInt(s)` with no radix argument: skip leading whitespace,
optional sign, a `0x`/`0X` prefix selects radix 16 (otherwise 10), then
the maximal digit run; NaN is modelled as `none`. -/
def parseIntJs (s : String) : Option Int :=
  let cs := s.toList.dropWhile isJsWhitespace
  let sgn : Int × List Char :=
    match cs with
    | '-' :: r => (-1, r)
    | '+' :: r => (1, r)
    | _ => (1, cs)
  let rad : Nat × List Char :=
    match sgn.2 with
    | '0' :: 'x' :: r => (16, r)
    | '0' :: 'X' :: r => (16, r)
    | _ => (10, sgn.2)
  match parseDigits rad.1 rad.2 0 false with
  | none => none
  | some n => some (sgn.1 * (n : Int))

/-- JS `v || dflt` on an optional string: an unset variable and the empty
string are both falsy. -/
def jsOrString (v : Option String) (dflt : String) : String :=
  match v with
  | none => dflt
  | some s => if s = "" then dflt else s

/-- `parseInt(v || '') || dflt`: NaN and 0 are falsy, so both fall back
to the default. -/
def numericEnv (v : Option String) (dflt : Int) : Int :=
  match parseIntJs (v.getD "") with
  | none => dflt
  | some n => if n = 0 then dflt else n

/-- WORKER_CONFIG resolution from the environment (lines 45-51). -/
def WORKER_CONFIG (env : Env) : WorkerConfig :=
  ⟨jsOrString env.workerIdVar DEFAULT_CONFIG.id,
   numericEnv env.pollingIntervalVar DEFAULT_CONFIG.pollingInterval,
   numericEnv env.stalledJobTimeoutVar DEFAULT_CONFIG.stalledJobTimeout,
   numericEnv env.circuitBreakerResetTimeoutVar DEFAULT_CONFIG.circuitBreakerResetTimeout,
   numericEnv env.retryDelayVar DEFAULT_CONFIG.retryDelay⟩

/-- JS truthiness of an optional string (unset and empty are falsy). -/
def truthyStr (v : Option String) : Bool :=
  match v with
  | none => false
  | some s => !(s == "")

/-- Module-init check (lines 9-18): if the supabase URL or the service
key is missing the process exits with code 1 before the loop is ever
built; otherwise init continues (no exit). -/
def moduleStartupExit (env : Env) : Option Nat :=
  if !truthyStr env.supabaseUrlVar || !truthyStr env.supabaseKeyVar then some 1 else none

/-! ### Error taxonomy (lines 53-87): the runtime class of a thrown value.
`otherError` stands for any thrown value outside the worker's class
hierarchy (e.g. a raw TypeError from a library). -/

/-- Closed model of the thrown values the program distinguishes with
instanceof: the five worker error classes plus anything else. -/
inductive JsError where
  | workerError (message code : String)
  | supabaseError (message originalError : String)
  | circuitBreakerError (message : String)
  | jobProcessingError (message jobId : String)
  | stalledJobError (message jobId : String)
  | otherError (message : String)
deriving DecidableEq, Repr

/-- `e instanceof WorkerError`: true of every class in the hierarchy
(the four others extend WorkerError), false of foreign values. -/
def instanceOfWorkerError : JsError → Bool
  | .otherError _ => false
  | _ => true

/-- `e instanceof SupabaseError`. -/
def instanceOfSupabaseError : JsError → Bool
  | .supabaseError _ _ => true
  | _ => false

/-- `e instanceof CircuitBreakerError`. -/
def instanceOfCircuitBreakerError : JsError → Bool
  | .circuitBreakerError _ => true
  | _ => false

/-- `e instanceof JobProcessingError`. -/
def instanceOfJobProcessingError : JsError → Bool
  | .jobProcessingError _ _ => true
  | _ => false

/-- `e instanceof StalledJobError`. -/
def instanceOfStalledJobError : JsError → Bool
  | .stalledJobError _ _ => true
  | _ => false

/-- safeSupabaseCall (lines 144-158), applied to the outcome of its
callback: a successful value passes through; a thrown
CircuitBreakerError or SupabaseError is re-thrown unchanged; ANY other
thrown value — including a plain WorkerError, a JobProcessingError or a
StalledJobError — is replaced by a fresh generic WorkerError with code
UNKNOWN_ERROR. -/
def safeSupabaseCall {α : Type} (r : Except JsError α) : Except JsError α :=
  match r with
  | .ok v => .ok v
  | .error e =>
    if instanceOfCircuitBreakerError e then .error e
    else if instanceOfSupabaseError e then .error e
    else .error (.workerError "Unexpected error during Supabase operation" "UNKNOWN_ERROR")

/-! ### Job records and the stalled-job store query (lines 89-117) -/

/-- A row of the import_jobs table; timestamps are milliseconds since
the epoch (the code compares ISO-8601 strings, whose order coincides
with millisecond order). -/
structure Job where
  id : String
  status : String
  created_at : Int
  updated_at : Int
  worker_id : Option String
deriving DecidableEq, Repr

/-- The store-side filter of the recovery query: status = processing and
updated_at strictly below the cutoff (the `.lt` filter). -/
def stalledFilter (table : List Job) (cutoff : Int) : List Job :=
  table.filter (fun j => decide (j.status = "processing" ∧ j.updated_at < cutoff))

/-- Insertion step of the store's ORDER BY created_at ascending. -/
def insertByCreatedAt (j : Job) : List Job → List Job
  | [] => [j]
  | k :: rest =>
    if j.created_at ≤ k.created_at then j :: k :: rest
    else k :: insertByCreatedAt j rest

/-- The store's ORDER BY created_at ascending, modelled as an insertion
sort (any stable sort is a faithful model of the store contract). -/
def orderByCreatedAt : List Job → List Job
  | [] => []
  | j :: rest => insertByCreatedAt j (orderByCreatedAt rest)

/-- The whole recovery query (lines 96-102): filter processing rows
strictly older than now − timeout, order by created_at ascending,
limit 1. -/
def stalledJobQuery (table : List Job) (now timeout : Int) : List Job :=
  (orderByCreatedAt (stalledFilter table (now - timeout))).take 1

/-! ### Observable events of the worker functions -/

/-- One observable action performed by a worker function: a store RPC
claim attempt, the stalled-jobs select, a JobProcessor invocation, a
sleep of some duration, or an error log line. -/
inductive Event where
  | claimCall (workerId : String)
  | stalledQueryCall
  | processCall (jobId workerId : String)
  | sleepEv (ms : Int)
  | logErr (tag : String)
deriving DecidableEq, Repr

/-- Recognizer of claim attempts, used to count loop iterations. -/
def isClaimEvent : Event → Bool
  | .claimCall _ => true
  | _ => false

/-- The `{ data, error }` pair returned by the claim_next_pending_job
RPC. -/
structure ClaimResult where
  data : Option (List Job)
  error : Option String

/-- The oracle for one main-loop iteration: the RPC response and the
outcome processJob would have if invoked. -/
structure IterInput where
  claim : ClaimResult
  processResult : Except JsError Unit

/-! ### checkForPendingJobs (lines 119-142) -/

/-- The try-block of checkForPendingJobs: call the claim RPC; a store
error becomes a thrown SupabaseError; no rows means an idle return; a
claimed job is handed to processJob, whose thrown error propagates. -/
def checkBody (cfg : WorkerConfig) (inp : IterInput) : List Event × Option JsError :=
  match inp.claim.error with
  | some e => ([Event.claimCall cfg.id], some (.supabaseError "Failed to claim next job" e))
  | none =>
    match inp.claim.data with
    | none => ([Event.claimCall cfg.id], none)
    | some [] => ([Event.claimCall cfg.id], none)
    | some (job :: _) =>
      match inp.processResult with
      | .ok _ => ([Event.claimCall cfg.id, Event.processCall job.id cfg.id], none)
      | .error e => ([Event.claimCall cfg.id, Event.processCall job.id cfg.id], some e)

/-- checkForPendingJobs: the try-block wrapped in the catch-all handler,
which logs and sleeps retryDelay; no error ever leaves the function. -/
def checkForPendingJobs (cfg : WorkerConfig) (inp : IterInput) : List Event × Option JsError :=
  match checkBody cfg inp with
  | (evs, none) => (evs, none)
  | (evs, some _) =>
    (evs ++ [Event.logErr "Error checking for pending jobs", Event.sleepEv cfg.retryDelay], none)

/-! ### recoverStalledJobs (lines 89-117) and its schedule -/

/-- The try-block of recoverStalledJobs: run the stalled query (a store
error becomes a thrown SupabaseError); if a row is returned, hand it to
processJob with this worker's id — no claim RPC is involved. -/
def recoverBody (cfg : WorkerConfig) (now : Int) (table : List Job) (qerr : Option String)
    (pout : Except JsError Unit) : List Event × Option JsError :=
  match qerr with
  | some e => ([Event.stalledQueryCall], some (.supabaseError "Failed to fetch stalled jobs" e))
  | none =>
    match stalledJobQuery table now cfg.stalledJobTimeout with
    | [] => ([Event.stalledQueryCall], none)
    | job :: _ =>
      match pout with
      | .ok _ => ([Event.stalledQueryCall, Event.processCall job.id cfg.id], none)
      | .error e => ([Event.stalledQueryCall, Event.processCall job.id cfg.id], some e)

/-- recoverStalledJobs: the try-block wrapped in the catch-all handler,
which logs and sleeps retryDelay; no error ever leaves the function. -/
def recoverStalledJobs (cfg : WorkerConfig) (now : Int) (table : List Job) (qerr : Option String)
    (pout : Except JsError Unit) : List Event × Option JsError :=
  match recoverBody cfg now table qerr pout with
  | (evs, none) => (evs, none)
  | (evs, some _) =>
    (evs ++ [Event.logErr "Error recovering stalled jobs", Event.sleepEv cfg.retryDelay], none)

/-- The setInterval callback (lines 175-182): recoverStalledJobs wrapped
in one more catch that only logs. -/
def stalledTick (cfg : WorkerConfig) (now : Int) (table : List Job) (qerr : Option String)
    (pout : Except JsError Unit) : List Event × Option JsError :=
  match recoverStalledJobs cfg now table qerr pout with
  | (evs, none) => (evs, none)
  | (evs, some _) => (evs ++ [Event.logErr "Error checking stalled jobs"], none)

/-- The period of the recovery timer: setInterval is created with
WORKER_CONFIG.stalledJobTimeout (line 182). -/
def stalledScanPeriodMs (cfg : WorkerConfig) : Int :=
  cfg.stalledJobTimeout

/-! ### The main loop of startWorker (lines 188-213) -/

/-- The classification switch of the loop's catch (lines 193-205):
instanceof CircuitBreakerError sleeps circuitBreakerResetTimeout;
JobProcessingError, SupabaseError and everything else sleep retryDelay. -/
def startWorkerCatch (cfg : WorkerConfig) (e : JsError) : List Event :=
  if instanceOfCircuitBreakerError e then
    [Event.logErr "Circuit breaker triggered", Event.sleepEv cfg.circuitBreakerResetTimeout]
  else if instanceOfJobProcessingError e then
    [Event.logErr "Job processing error", Event.sleepEv cfg.retryDelay]
  else if instanceOfSupabaseError e then
    [Event.logErr "Supabase error", Event.sleepEv cfg.retryDelay]
  else
    [Event.logErr "Unexpected error", Event.sleepEv cfg.retryDelay]

/-- One pass of the while body: try checkForPendingJobs, classify a
propagated error with the switch, then the unconditional pollingInterval
sleep.  The catch covers every JsError, so the body itself never
propagates an error. -/
def loopBody (cfg : WorkerConfig) (inp : IterInput) : List Event × Option JsError :=
  match checkForPendingJobs cfg inp with
  | (evs, none) => (evs ++ [Event.sleepEv cfg.pollingInterval], none)
  | (evs, some e) => (evs ++ startWorkerCatch cfg e ++ [Event.sleepEv cfg.pollingInterval], none)

/-- The events of one loop iteration. -/
def loopIteration (cfg : WorkerConfig) (inp : IterInput) : List Event :=
  (loopBody cfg inp).1

/-- The while(true) loop run over a finite prefix of iteration oracles:
an error escaping the body would reach the outer catch (lines 209-213),
which clears the timer and exits the process with code 1; otherwise the
loop continues through every iteration. -/
def runLoop (cfg : WorkerConfig) : List IterInput → Option Nat × List Event
  | [] => (none, [])
  | inp :: rest =>
    match loopBody cfg inp with
    | (evs, some _) => (some 1, evs)
    | (evs, none) =>
      let r := runLoop cfg rest
      (r.1, evs ++ r.2)

/-! ### Process lifecycle (lines 12-18, 175-186, 217-241) -/

/-- An action a process-level handler can perform. -/
inductive TAction where
  | clearTimer
  | exitWith (code : Nat)
  | logMsg (tag : String)
deriving DecidableEq, Repr

/-- Run the actions of one handler in order; process.exit terminates the
process immediately, so nothing after an exitWith runs. -/
def runActions : List TAction → List TAction × Option Nat
  | [] => ([], none)
  | TAction.exitWith c :: _ => ([TAction.exitWith c], some c)
  | a :: rest =>
    let r := runActions rest
    (a :: r.1, r.2)

/-- Run the registered listeners of one process event in registration
order; once a listener has exited the process, later listeners never
run. -/
def runListeners : List (List TAction) → List TAction × Option Nat
  | [] => ([], none)
  | h :: t =>
    let r := runActions h
    match r.2 with
    | some c => (r.1, some c)
    | none =>
      let r2 := runListeners t
      (r.1 ++ r2.1, r2.2)

/-- The SIGTERM listeners in registration order: the module-level
handler (line 217, registered when the module body runs) logs and exits
with code 0; the handler registered afterwards inside startWorker
(line 185, run by the startWorker() call at line 238) clears the
stalled-jobs interval. -/
def sigtermListeners : List (List TAction) :=
  [[TAction.logMsg "Received SIGTERM, shutting down gracefully", TAction.exitWith 0],
   [TAction.clearTimer]]

/-- The SIGINT listeners in registration order (lines 222 and 186),
mirroring the SIGTERM pair. -/
def sigintListeners : List (List TAction) :=
  [[TAction.logMsg "Received SIGINT, shutting down gracefully", TAction.exitWith 0],
   [TAction.clearTimer]]

/-- The uncaughtException listener (lines 228-231). -/
def uncaughtExceptionListeners : List (List TAction) :=
  [[TAction.logMsg "Uncaught exception", TAction.exitWith 1]]

/-- The unhandledRejection listener (lines 233-236). -/
def unhandledRejectionListeners : List (List TAction) :=
  [[TAction.logMsg "Unhandled rejection", TAction.exitWith 1]]

/-! ### Store-interaction call sites (syntactic transcription) -/

/-- A store-interaction site of the source, with the fact of whether the
call is routed through safeSupabaseCall. -/
structure StoreCallSite where
  enclosingFn : String
  operation : String
  wrapped : Bool
deriving DecidableEq, Repr

/-- The two store interactions of the source: the claim RPC at line 124
and the stalled-jobs select at line 96.  Neither call is routed through
safeSupabaseCall — the wrapper is defined at line 144 but invoked
nowhere in the file. -/
def storeCallSites : List StoreCallSite :=
  [⟨"checkForPendingJobs", "rpc claim_next_pending_job", false⟩,
   ⟨"recoverStalledJobs", "from import_jobs select", false⟩]

/-! ### Concrete fixtures used by witnesses and counterexamples -/

/-- A configuration whose durations are pairwise distinct, so the sleep
branches can be told apart. -/
def cfgX : WorkerConfig := ⟨"w1", 1000, 60000, 7777, 3333⟩

/-- A job as returned by the claim RPC. -/
def jobX : Job := ⟨"job-1", "processing", 0, 0, some "w1"⟩

/-- A stale processing job with the earliest created_at among the stale
ones. -/
def jobStaleOld : Job := ⟨"stale-old", "processing", 10, 500, some "w2"⟩

/-- A stale processing job created later than jobStaleOld. -/
def jobStaleNew : Job := ⟨"stale-new", "processing", 20, 600, some "w3"⟩

/-- A processing job whose updated_at sits exactly at the staleness
boundary for now = 100000 and stalledJobTimeout = 60000; its created_at
is the earliest of all fixtures, so only the strict comparison keeps it
out of the recovery pick. -/
def jobBoundaryX : Job := ⟨"boundary", "processing", 5, 40000, none⟩

/-- An iteration oracle: the claim succeeds with a job and processJob
throws a CircuitBreakerError. -/
def inpCbX : IterInput :=
  ⟨⟨some [jobX], none⟩, Except.error (JsError.circuitBreakerError "Circuit breaker is open")⟩

/-- An iteration oracle: the queue is empty. -/
def inpEmptyX : IterInput := ⟨⟨some [], none⟩, Except.ok ()⟩

/-! ### Helper lemmas -/

/-- Membership in an insertion step. -/
theorem mem_insertByCreatedAt (a j : Job) (l : List Job) :
    a ∈ insertByCreatedAt j l ↔ a = j ∨ a ∈ l := by
  induction l with
  | nil => simp [insertByCreatedAt]
  | cons k rest ih =>
    by_cases h : j.created_at ≤ k.created_at
    · simp [insertByCreatedAt, h]
    · simp [insertByCreatedAt, h, ih]
      tauto

/-- Inserting keeps the list sorted by created_at. -/
theorem pairwise_insertByCreatedAt (j : Job) (l : List Job)
    (hl : l.Pairwise fun a b => a.created_at ≤ b.created_at) :
    (insertByCreatedAt j l).Pairwise fun a b => a.created_at ≤ b.created_at := by
  induction l with
  | nil => simp [insertByCreatedAt]
  | cons k rest ih =>
    rcases List.pairwise_cons.mp hl with ⟨hk, hrest⟩
    by_cases h : j.created_at ≤ k.created_at
    · rw [insertByCreatedAt, if_pos h]
      refine List.pairwise_cons.mpr ⟨?_, hl⟩
      intro a ha
      rcases List.mem_cons.mp ha with rfl | ha2
      · exact h
      · exact le_trans h (hk a ha2)
    · rw [insertByCreatedAt, if_neg h]
      refine List.pairwise_cons.mpr ⟨?_, ih hrest⟩
      intro a ha
      rcases (mem_insertByCreatedAt a j rest).mp ha with rfl | ha2
      · exact le_of_lt (lt_of_not_le h)
      · exact hk a ha2

/-- The sort is sorted by created_at. -/
theorem pairwise_orderByCreatedAt (l : List Job) :
    (orderByCreatedAt l).Pairwise fun a b => a.created_at ≤ b.created_at := by
  induction l with
  | nil => simp [orderByCreatedAt]
  | cons j rest ih => exact pairwise_insertByCreatedAt j _ ih

/-- The sort neither adds nor removes rows. -/
theorem mem_orderByCreatedAt (a : Job) (l : List Job) :
    a ∈ orderByCreatedAt l ↔ a ∈ l := by
  induction l with
  | nil => simp [orderByCreatedAt]
  | cons j rest ih =>
    rw [orderByCreatedAt, mem_insertByCreatedAt, ih, List.mem_cons]

/-- Membership in the filter step, unfolded. -/
theorem mem_stalledFilter (j : Job) (table : List Job) (cutoff : Int) :
    j ∈ stalledFilter table cutoff ↔
      j ∈ table ∧ j.status = "processing" ∧ j.updated_at < cutoff := by
  simp [stalledFilter, List.mem_filter]

/-- Every row the recovery query returns is a processing row of the
table strictly older than the cutoff. -/
theorem stalledJobQuery_subset (table : List Job) (now timeout : Int) (j : Job)
    (hj : j ∈ stalledJobQuery table now timeout) :
    j ∈ table ∧ j.status = "processing" ∧ j.updated_at < now - timeout := by
  have h1 : j ∈ orderByCreatedAt (stalledFilter table (now - timeout)) :=
    List.take_subset 1 _ hj
  exact (mem_stalledFilter j table (now - timeout)).mp
    ((mem_orderByCreatedAt j _).mp h1)

/-- The recovery query returns at most one row. -/
theorem stalledJobQuery_length (table : List Job) (now timeout : Int) :
    (stalledJobQuery table now timeout).length ≤ 1 := by
  rw [stalledJobQuery, List.length_take]
  exact min_le_left 1 _

/-- The row the recovery query returns has the least created_at among
all stale processing rows. -/
theorem stalledJobQuery_min (table : List Job) (now timeout : Int) (j : Job)
    (hj : j ∈ stalledJobQuery table now timeout) (k : Job) (hk : k ∈ table)
    (hks : k.status = "processing") (hku : k.updated_at < now - timeout) :
    j.created_at ≤ k.created_at := by
  have hkf : k ∈ stalledFilter table (now - timeout) :=
    (mem_stalledFilter k table (now - timeout)).mpr ⟨hk, hks, hku⟩
  rw [stalledJobQuery] at hj
  cases hof : orderByCreatedAt (stalledFilter table (now - timeout)) with
  | nil => rw [hof] at hj; simp at hj
  | cons h0 t =>
    rw [hof] at hj
    simp [List.take] at hj
    subst hj
    have hkmem : k ∈ j :: t := by
      rw [← hof, mem_orderByCreatedAt]
      exact hkf
    have hp := pairwise_orderByCreatedAt (stalledFilter table (now - timeout))
    rw [hof] at hp
    rcases List.pairwise_cons.mp hp with ⟨hhead, _⟩
    rcases List.mem_cons.mp hkmem with rfl | hmem
    · exact le_refl _
    · exact hhead k hmem

/-- checkForPendingJobs never lets an error escape. -/
theorem checkForPendingJobs_snd (cfg : WorkerConfig) (inp : IterInput) :
    (checkForPendingJobs cfg inp).2 = none := by
  rw [checkForPendingJobs]
  rcases h : checkBody cfg inp with ⟨evs, err⟩
  cases err <;> simp

/-- recoverStalledJobs never lets an error escape. -/
theorem recoverStalledJobs_snd (cfg : WorkerConfig) (now : Int) (table : List Job)
    (qerr : Option String) (pout : Except JsError Unit) :
    (recoverStalledJobs cfg now table qerr pout).2 = none := by
  rw [recoverStalledJobs]
  rcases h : recoverBody cfg now table qerr pout with ⟨evs, err⟩
  cases err <;> simp

/-- The loop body never lets an error escape (its catch is exhaustive). -/
theorem loopBody_snd (cfg : WorkerConfig) (inp : IterInput) :
    (loopBody cfg inp).2 = none := by
  rw [loopBody]
  rcases h : checkForPendingJobs cfg inp with ⟨evs, err⟩
  cases err <;> simp

/-- Because checkForPendingJobs propagates nothing, the loop body is the
check events followed by the unconditional pollingInterval sleep. -/
theorem loopBody_eq (cfg : WorkerConfig) (inp : IterInput) :
    loopBody cfg inp = ((checkForPendingJobs cfg inp).1 ++ [Event.sleepEv cfg.pollingInterval], none) := by
  rw [loopBody]
  rcases h : checkForPendingJobs cfg inp with ⟨evs, err⟩
  have h2 := checkForPendingJobs_snd cfg inp
  rw [h] at h2
  simp at h2
  subst h2
  simp

/-- The events of one full iteration are the check events followed by
the unconditional pollingInterval sleep. -/
theorem loopIteration_eq (cfg : WorkerConfig) (inp : IterInput) :
    loopIteration cfg inp = (checkForPendingJobs cfg inp).1 ++ [Event.sleepEv cfg.pollingInterval] := by
  rw [loopIteration, loopBody_eq]

/-- Every iteration performs exactly one claim attempt. -/
theorem countP_claim_check (cfg : WorkerConfig) (inp : IterInput) :
    (checkForPendingJobs cfg inp).1.countP isClaimEvent = 1 := by
  rcases inp with ⟨⟨d, err⟩, p⟩
  cases err with
  | some s =>
    simp [checkForPendingJobs, checkBody, List.countP_cons, isClaimEvent]
  | none =>
    cases d with
    | none => simp [checkForPendingJobs, checkBody, List.countP_cons, isClaimEvent]
    | some l =>
      cases l with
      | nil => simp [checkForPendingJobs, checkBody, List.countP_cons, isClaimEvent]
      | cons j r =>
        cases p with
        | ok v => simp [checkForPendingJobs, checkBody, List.countP_cons, isClaimEvent]
        | error e => simp [checkForPendingJobs, checkBody, List.countP_cons, isClaimEvent]

/-- On an all-idle oracle prefix the loop reduces to one claim attempt
and one pollingInterval sleep per iteration, with no exit. -/
theorem runLoop_all_empty (cfg : WorkerConfig) (inputs : List IterInput)
    (hall : ∀ i ∈ inputs, i.claim.error = none ∧ i.claim.data = some []) :
    runLoop cfg inputs =
      (none, (List.replicate inputs.length
        [Event.claimCall cfg.id, Event.sleepEv cfg.pollingInterval]).flatten) := by
  induction inputs with
  | nil => simp [runLoop]
  | cons i rest ih =>
    have hi := hall i (List.mem_cons_self i rest)
    have hrest := ih fun j hj => hall j (List.mem_cons_of_mem i hj)
    have hbody : loopBody cfg i = ([Event.claimCall cfg.id, Event.sleepEv cfg.pollingInterval], none) := by
      rw [loopBody_eq]
      simp [checkForPendingJobs, checkBody, hi.1, hi.2]
    rw [runLoop, hbody, hrest]
    simp [List.replicate_succ]

/-! ### Claim theorems -/

/-- Claim C1, counterexample: with retryDelay 3333 and
circuitBreakerResetTimeout 7777, a CircuitBreakerError raised while
processing a claimed job does NOT produce the circuitBreakerResetTimeout
sleep the claim prescribes for that failure kind; the iteration sleeps
retryDelay (inside checkForPendingJobs) and then pollingInterval. -/
theorem c1_counterexample :
    Event.sleepEv (7777 : Int) ∉ loopIteration cfgX inpCbX ∧
    loopIteration cfgX inpCbX =
      [Event.claimCall "w1", Event.processCall "job-1" "w1",
       Event.logErr "Error checking for pending jobs", Event.sleepEv 3333,
       Event.sleepEv 1000] := by
  decide

/-- Claim C1 (amended): every error raised during the claim-and-process
step — CircuitBreakerError included — is caught inside
checkForPendingJobs and produces a retryDelay sleep layered on top of
the unconditional pollingInterval sleep, regardless of the failure kind;
the loop-level classification switch never runs. -/
theorem c1_amended (cfg : WorkerConfig) (inp : IterInput) :
    (∀ (e : JsError) (job : Job) (rest : List Job),
       inp.claim.error = none → inp.claim.data = some (job :: rest) →
       inp.processResult = Except.error e →
       loopIteration cfg inp =
         [Event.claimCall cfg.id, Event.processCall job.id cfg.id,
          Event.logErr "Error checking for pending jobs", Event.sleepEv cfg.retryDelay,
          Event.sleepEv cfg.pollingInterval]) ∧
    (∀ s, inp.claim.error = some s →
       loopIteration cfg inp =
         [Event.claimCall cfg.id, Event.logErr "Error checking for pending jobs",
          Event.sleepEv cfg.retryDelay, Event.sleepEv cfg.pollingInterval]) := by
  constructor
  · intro e job rest he hd hp
    simp [loopIteration_eq, checkForPendingJobs, checkBody, he, hd, hp]
  · intro s he
    simp [loopIteration_eq, checkForPendingJobs, checkBody, he]

/-- Witness for the amended C1 at a concrete input. -/
theorem c1_amended_witness :
    loopIteration cfgX inpCbX =
      [Event.claimCall cfgX.id, Event.processCall jobX.id cfgX.id,
       Event.logErr "Error checking for pending jobs", Event.sleepEv cfgX.retryDelay,
       Event.sleepEv cfgX.pollingInterval] :=
  (c1_amended cfgX inpCbX).1 (JsError.circuitBreakerError "Circuit breaker is open") jobX [] rfl rfl rfl

/-- Claim C2: each recovery scan selects only processing rows strictly
older than now − stalledJobTimeout (a row exactly at the boundary is
never selected, one at boundary − 1 ms is), returns at most one row —
the one with the least created_at among the stale processing rows — and
hands it directly to JobProcessor tagged with this worker's id, with no
claim RPC anywhere in the scan. -/
theorem c2_recovery (cfg : WorkerConfig) (now : Int) (table : List Job)
    (qerr : Option String) (pout : Except JsError Unit) :
    (∀ j ∈ stalledJobQuery table now cfg.stalledJobTimeout,
       j ∈ table ∧ j.status = "processing" ∧ j.updated_at < now - cfg.stalledJobTimeout) ∧
    (stalledJobQuery table now cfg.stalledJobTimeout).length ≤ 1 ∧
    (∀ j ∈ stalledJobQuery table now cfg.stalledJobTimeout, ∀ k ∈ table,
       k.status = "processing" → k.updated_at < now - cfg.stalledJobTimeout →
       j.created_at ≤ k.created_at) ∧
    (∀ j, j.updated_at = now - cfg.stalledJobTimeout →
       j ∉ stalledJobQuery table now cfg.stalledJobTimeout) ∧
    (∀ j, j.status = "processing" → j.updated_at = now - cfg.stalledJobTimeout - 1 →
       stalledJobQuery [j] now cfg.stalledJobTimeout = [j]) ∧
    (∀ (job : Job) (rest2 : List Job),
       stalledJobQuery table now cfg.stalledJobTimeout = job :: rest2 → qerr = none →
       Event.processCall job.id cfg.id ∈ (recoverStalledJobs cfg now table qerr pout).1) ∧
    (∀ w, Event.claimCall w ∉ (recoverStalledJobs cfg now table qerr pout).1) := by
  refine ⟨?_, stalledJobQuery_length table now cfg.stalledJobTimeout, ?_, ?_, ?_, ?_, ?_⟩
  · intro j hj
    exact stalledJobQuery_subset table now cfg.stalledJobTimeout j hj
  · intro j hj k hk hks hku
    exact stalledJobQuery_min table now cfg.stalledJobTimeout j hj k hk hks hku
  · intro j hu hj
    have h := stalledJobQuery_subset table now cfg.stalledJobTimeout j hj
    omega
  · intro j hs hu
    have hlt : j.updated_at < now - cfg.stalledJobTimeout := by omega
    simp [stalledJobQuery, stalledFilter, List.filter, hs, hlt, orderByCreatedAt,
      insertByCreatedAt]
  · intro job rest2 hq hqerr
    subst hqerr
    cases pout with
    | ok v => simp [recoverStalledJobs, recoverBody, hq]
    | error e => simp [recoverStalledJobs, recoverBody, hq]
  · intro w
    cases qerr with
    | some s => simp [recoverStalledJobs, recoverBody]
    | none =>
      cases hq : stalledJobQuery table now cfg.stalledJobTimeout with
      | nil => simp [recoverStalledJobs, recoverBody, hq]
      | cons job rest2 =>
        cases pout with
        | ok v => simp [recoverStalledJobs, recoverBody, hq]
        | error e => simp [recoverStalledJobs, recoverBody, hq]

/-- Witness for C2 at a concrete table: the boundary row (earliest
created_at, updated_at exactly at the cutoff) is not picked; among the
two strictly stale rows the scan picks the earlier-created one and
resubmits it directly. -/
theorem c2_witness :
    stalledJobQuery [jobStaleNew, jobBoundaryX, jobStaleOld] 100000 cfgX.stalledJobTimeout = [jobStaleOld] ∧
    jobStaleOld.created_at ≤ jobStaleNew.created_at ∧
    jobBoundaryX ∉ stalledJobQuery [jobStaleNew, jobBoundaryX, jobStaleOld] 100000 cfgX.stalledJobTimeout ∧
    stalledJobQuery [⟨"one-ms", "processing", 3, 39999, none⟩] 100000 cfgX.stalledJobTimeout =
      [⟨"one-ms", "processing", 3, 39999, none⟩] ∧
    Event.processCall jobStaleOld.id cfgX.id ∈
      (recoverStalledJobs cfgX 100000 [jobStaleNew, jobBoundaryX, jobStaleOld] none (Except.ok ())).1 := by
  refine ⟨by decide, ?_, ?_, ?_, ?_⟩
  · exact (c2_recovery cfgX 100000 [jobStaleNew, jobBoundaryX, jobStaleOld] none
      (Except.ok ())).2.2.1 jobStaleOld (by decide) jobStaleNew (by decide) (by decide) (by decide)
  · exact (c2_recovery cfgX 100000 [jobStaleNew, jobBoundaryX, jobStaleOld] none
      (Except.ok ())).2.2.2.1 jobBoundaryX (by decide)
  · exact (c2_recovery cfgX 100000 [] none (Except.ok ())).2.2.2.2.1
      ⟨"one-ms", "processing", 3, 39999, none⟩ rfl (by decide)
  · exact (c2_recovery cfgX 100000 [jobStaleNew, jobBoundaryX, jobStaleOld] none
      (Except.ok ())).2.2.2.2.2.1 jobStaleOld [] (by decide) rfl

/-- Claim C3, counterexample: it is not the case that every store
interaction of the WorkerLoop and the StalledJobRecoverer is routed
through safeSupabaseCall — neither of the two store call sites is. -/
theorem c3_counterexample : ¬ ∀ s ∈ storeCallSites, s.wrapped = true := by
  decide

/-- Claim C3 (amended): no store interaction is routed through
safeSupabaseCall (the wrapper is dead code); nevertheless no failure at
all reaches WorkerLoop's classification switch, because both
checkForPendingJobs and recoverStalledJobs catch every error
internally. -/
theorem c3_amended :
    (∀ s ∈ storeCallSites, s.wrapped = false) ∧
    (∀ (cfg : WorkerConfig) (inp : IterInput), (checkForPendingJobs cfg inp).2 = none) ∧
    (∀ (cfg : WorkerConfig) (now : Int) (table : List Job) (qerr : Option String)
       (pout : Except JsError Unit), (recoverStalledJobs cfg now table qerr pout).2 = none) := by
  exact ⟨by decide, checkForPendingJobs_snd, recoverStalledJobs_snd⟩

/-- Witness for the amended C3 at concrete inputs. -/
theorem c3_witness :
    (⟨"checkForPendingJobs", "rpc claim_next_pending_job", false⟩ : StoreCallSite).wrapped = false ∧
    (checkForPendingJobs cfgX inpEmptyX).2 = none := by
  exact ⟨c3_amended.1 ⟨"checkForPendingJobs", "rpc claim_next_pending_job", false⟩ (by decide),
    c3_amended.2.1 cfgX inpEmptyX⟩

/-- Claim C4, counterexample: a JobProcessingError is one of the closed
kinds of the taxonomy, yet safeSupabaseCall does not re-throw it
unchanged — it replaces it with the generic WorkerError UNKNOWN_ERROR. -/
theorem c4_counterexample :
    safeSupabaseCall (Except.error (JsError.jobProcessingError "Job failed" "job-42") : Except JsError Unit) =
      Except.error (JsError.workerError "Unexpected error during Supabase operation" "UNKNOWN_ERROR") ∧
    safeSupabaseCall (Except.error (JsError.jobProcessingError "Job failed" "job-42") : Except JsError Unit) ≠
      Except.error (JsError.jobProcessingError "Job failed" "job-42") := by
  refine ⟨rfl, ?_⟩
  intro h
  simp [safeSupabaseCall, instanceOfCircuitBreakerError, instanceOfSupabaseError] at h

/-- Claim C4 (amended): for a non-throwing callback the wrapper returns
the result unchanged; a thrown CircuitBreakerError or SupabaseError
passes through unchanged; every other thrown value — the remaining
closed kinds WorkerError, JobProcessingError and StalledJobError
included — is replaced by the generic WorkerError with code
UNKNOWN_ERROR. -/
theorem c4_amended :
    (∀ (α : Type) (v : α), safeSupabaseCall (Except.ok v : Except JsError α) = Except.ok v) ∧
    (∀ (α : Type) (e : JsError),
       instanceOfCircuitBreakerError e = true ∨ instanceOfSupabaseError e = true →
       safeSupabaseCall (Except.error e : Except JsError α) = Except.error e) ∧
    (∀ (α : Type) (e : JsError),
       instanceOfCircuitBreakerError e = false → instanceOfSupabaseError e = false →
       safeSupabaseCall (Except.error e : Except JsError α) =
         Except.error (JsError.workerError "Unexpected error during Supabase operation" "UNKNOWN_ERROR")) := by
  refine ⟨fun α v => rfl, ?_, ?_⟩
  · rintro α e (h | h) <;> simp [safeSupabaseCall, h]
  · intro α e h1 h2
    simp [safeSupabaseCall, h1, h2]

/-- Witness for the amended C4 at concrete errors. -/
theorem c4_witness :
    safeSupabaseCall (Except.error (JsError.circuitBreakerError "Circuit breaker is open") : Except JsError Unit) =
      Except.error (JsError.circuitBreakerError "Circuit breaker is open") ∧
    safeSupabaseCall (Except.error (JsError.stalledJobError "stalled" "job-7") : Except JsError Unit) =
      Except.error (JsError.workerError "Unexpected error during Supabase operation" "UNKNOWN_ERROR") := by
  exact ⟨c4_amended.2.1 Unit (JsError.circuitBreakerError "Circuit breaker is open") (Or.inl rfl),
    c4_amended.2.2 Unit (JsError.stalledJobError "stalled" "job-7") rfl rfl⟩

/-- Claim C5: every error raised during a claim-and-process iteration is
caught inside checkForPendingJobs itself, which then sleeps retryDelay;
nothing propagates to the loop's classification switch, so the loop body
is always the check events plus the pollingInterval sleep and the
circuitBreakerResetTimeout branch of the switch is unreachable. -/
theorem c5_no_escape (cfg : WorkerConfig) (inp : IterInput) :
    (checkForPendingJobs cfg inp).2 = none ∧
    ((inp.claim.error ≠ none ∨
       (∃ (e : JsError) (job : Job) (rest : List Job),
          inp.claim.error = none ∧ inp.claim.data = some (job :: rest) ∧
          inp.processResult = Except.error e)) →
       Event.sleepEv cfg.retryDelay ∈ (checkForPendingJobs cfg inp).1) ∧
    loopIteration cfg inp = (checkForPendingJobs cfg inp).1 ++ [Event.sleepEv cfg.pollingInterval] := by
  refine ⟨checkForPendingJobs_snd cfg inp, ?_, loopIteration_eq cfg inp⟩
  rintro (h | ⟨e, job, rest, he, hd, hp⟩)
  · rcases Option.ne_none_iff_exists.mp h with ⟨s, hs⟩
    simp [checkForPendingJobs, checkBody, ← hs]
  · simp [checkForPendingJobs, checkBody, he, hd, hp]

/-- Witness for C5 at a concrete input: a CircuitBreakerError thrown by
processJob stays inside checkForPendingJobs and yields the retryDelay
sleep. -/
theorem c5_witness :
    (checkForPendingJobs cfgX inpCbX).2 = none ∧
    Event.sleepEv cfgX.retryDelay ∈ (checkForPendingJobs cfgX inpCbX).1 := by
  exact ⟨(c5_no_escape cfgX inpCbX).1,
    (c5_no_escape cfgX inpCbX).2.1
      (Or.inr ⟨JsError.circuitBreakerError "Circuit breaker is open", jobX, [], rfl, rfl, rfl⟩)⟩

/-- Claim C6 (code bug evaluated at the failing input): on SIGTERM the
process exits with code 0, but the exit handler — registered at module
level before startWorker() runs — fires first and process.exit stops
listener processing, so the clearTimer handler registered inside
startWorker never executes: the periodic timer is NOT cleared before the
exit, contrary to the claim and to the source's own comment.  The other
exit codes hold: SIGINT exits 0 (also without clearing the timer),
missing store URL or key aborts startup with code 1, and an uncaught
exception or unhandled rejection exits with code 1. -/
theorem c6_lifecycle :
    runListeners sigtermListeners =
      ([TAction.logMsg "Received SIGTERM, shutting down gracefully", TAction.exitWith 0], some 0) ∧
    TAction.clearTimer ∉ (runListeners sigtermListeners).1 ∧
    (runListeners sigintListeners).2 = some 0 ∧
    TAction.clearTimer ∉ (runListeners sigintListeners).1 ∧
    (runListeners uncaughtExceptionListeners).2 = some 1 ∧
    (runListeners unhandledRejectionListeners).2 = some 1 ∧
    moduleStartupExit ⟨none, none, none, none, none, none, some "service-key"⟩ = some 1 ∧
    moduleStartupExit ⟨none, none, none, none, none, some "https://x", none⟩ = some 1 ∧
    moduleStartupExit ⟨none, none, none, none, none, some "https://x", some ""⟩ = some 1 ∧
    moduleStartupExit ⟨none, none, none, none, none, some "https://x", some "service-key"⟩ = none := by
  decide

/-- Claim C7: every iteration ends with the unconditional
pollingInterval sleep; an empty-queue iteration performs nothing beyond
the claim attempt and that sleep, raising no error; and any all-empty
sequence of iterations is exactly one claim attempt plus one
pollingInterval sleep per iteration, with no exit. -/
theorem c7_polling_floor (cfg : WorkerConfig) (inp : IterInput) (inputs : List IterInput) :
    (loopIteration cfg inp).getLast? = some (Event.sleepEv cfg.pollingInterval) ∧
    (inp.claim.error = none → (inp.claim.data = none ∨ inp.claim.data = some []) →
       loopIteration cfg inp = [Event.claimCall cfg.id, Event.sleepEv cfg.pollingInterval] ∧
       (checkForPendingJobs cfg inp).2 = none) ∧
    ((∀ i ∈ inputs, i.claim.error = none ∧ i.claim.data = some []) →
       runLoop cfg inputs =
         (none, (List.replicate inputs.length
           [Event.claimCall cfg.id, Event.sleepEv cfg.pollingInterval]).flatten)) := by
  refine ⟨?_, ?_, runLoop_all_empty cfg inputs⟩
  · rw [loopIteration_eq]
    simp
  · rintro he (hd | hd) <;>
      exact ⟨by simp [loopIteration_eq, checkForPendingJobs, checkBody, he, hd],
        checkForPendingJobs_snd cfg inp⟩

/-- Witness for C7: two consecutive empty-queue iterations. -/
theorem c7_witness :
    runLoop cfgX [inpEmptyX, inpEmptyX] =
      (none, (List.replicate 2 [Event.claimCall cfgX.id, Event.sleepEv cfgX.pollingInterval]).flatten) ∧
    loopIteration cfgX inpEmptyX = [Event.claimCall cfgX.id, Event.sleepEv cfgX.pollingInterval] := by
  exact ⟨(c7_polling_floor cfgX inpEmptyX [inpEmptyX, inpEmptyX]).2.2
      (by intro i hi
          simp only [List.mem_cons, List.not_mem_nil, or_false] at hi
          rcases hi with rfl | rfl <;> exact ⟨rfl, rfl⟩),
    ((c7_polling_floor cfgX inpEmptyX [inpEmptyX, inpEmptyX]).2.1 rfl (Or.inr rfl)).1⟩

/-- Claim C8: no failure ever escapes a recovery scan — the scan and the
timer callback around it both return without propagating, a store error
makes the scan log and sleep retryDelay, a processJob failure does the
same after the resubmission, and the scan timer fires on the fixed
period stalledJobTimeout. -/
theorem c8_recoverer_contained (cfg : WorkerConfig) (now : Int) (table : List Job)
    (qerr : Option String) (pout : Except JsError Unit) :
    (recoverStalledJobs cfg now table qerr pout).2 = none ∧
    (stalledTick cfg now table qerr pout).2 = none ∧
    stalledScanPeriodMs cfg = cfg.stalledJobTimeout ∧
    (∀ s, qerr = some s →
       recoverStalledJobs cfg now table qerr pout =
         ([Event.stalledQueryCall, Event.logErr "Error recovering stalled jobs",
           Event.sleepEv cfg.retryDelay], none)) ∧
    (∀ (e : JsError) (job : Job) (rest2 : List Job),
       qerr = none → stalledJobQuery table now cfg.stalledJobTimeout = job :: rest2 →
       pout = Except.error e →
       recoverStalledJobs cfg now table qerr pout =
         ([Event.stalledQueryCall, Event.processCall job.id cfg.id,
           Event.logErr "Error recovering stalled jobs", Event.sleepEv cfg.retryDelay], none)) := by
  refine ⟨recoverStalledJobs_snd cfg now table qerr pout, ?_, rfl, ?_, ?_⟩
  · rw [stalledTick]
    rcases h : recoverStalledJobs cfg now table qerr pout with ⟨evs, err⟩
    cases err <;> simp
  · intro s hq
    simp [recoverStalledJobs, recoverBody, hq]
  · intro e job rest2 hq hqq hp
    simp [recoverStalledJobs, recoverBody, hq, hqq, hp]

/-- Witness for C8: a store error during the scan is logged and followed
by the retryDelay sleep, and nothing propagates. -/
theorem c8_witness :
    recoverStalledJobs cfgX 100000 [] (some "network down") (Except.ok ()) =
      ([Event.stalledQueryCall, Event.logErr "Error recovering stalled jobs",
        Event.sleepEv cfgX.retryDelay], none) ∧
    (stalledTick cfgX 100000 [] (some "network down") (Except.ok ())).2 = none := by
  exact ⟨(c8_recoverer_contained cfgX 100000 [] (some "network down") (Except.ok ())).2.2.2.1
      "network down" rfl,
    (c8_recoverer_contained cfgX 100000 [] (some "network down") (Except.ok ())).2.1⟩

/-- Claim C9: the worker loop never terminates of its own accord — over
every finite prefix of iteration oracles it reaches and completes every
iteration (one claim attempt each) and produces no process exit; only
the lifecycle handlers terminate the process. -/
theorem c9_loop_never_exits (cfg : WorkerConfig) (inputs : List IterInput) :
    (runLoop cfg inputs).1 = none ∧
    (runLoop cfg inputs).2.countP isClaimEvent = inputs.length := by
  induction inputs with
  | nil => simp [runLoop]
  | cons i rest ih =>
    rw [runLoop, loopBody_eq]
    simp only [List.countP_append]
    have hc := countP_claim_check cfg i
    simp [ih.1, ih.2, hc, List.countP_append, List.countP_cons, isClaimEvent, Nat.add_comm]

/-- Claim C10: every numeric variable that is missing, or whose parseInt
result is falsy (NaN or 0), resolves to its documented default
(pollingInterval 15000, stalledJobTimeout 60000,
circuitBreakerResetTimeout 15000, retryDelay 15000, worker id
"worker1"), and resolution never aborts; the value "0" parses to 0 and
falls back to the default, while "15abc" parses to 15 and is accepted. -/
theorem c10_config_defaults (v : Option String) (s : String) (d : Int) :
    WORKER_CONFIG ⟨none, none, none, none, none, none, none⟩ = DEFAULT_CONFIG ∧
    DEFAULT_CONFIG = ⟨"worker1", 15000, 60000, 15000, 15000⟩ ∧
    (v = none → numericEnv v d = d ∧ jsOrString v "worker1" = "worker1") ∧
    (parseIntJs s = none → numericEnv (some s) d = d) ∧
    (parseIntJs s = some 0 → numericEnv (some s) d = d) ∧
    parseIntJs "0" = some 0 ∧
    numericEnv (some "0") 15000 = 15000 ∧
    parseIntJs "15abc" = some 15 ∧
    numericEnv (some "15abc") 15000 = 15 ∧
    WORKER_CONFIG ⟨some "w9", some "0", some "abc", some "15abc", some "", none, none⟩ =
      ⟨"w9", 15000, 60000, 15, 15000⟩ := by
  refine ⟨by decide, by decide, ?_, ?_, ?_, by decide, by decide, by decide, by decide, by decide⟩
  · rintro rfl
    exact ⟨rfl, rfl⟩
  · intro h
    simp [numericEnv, h]
  · intro h
    simp [numericEnv, h]

/-- Witness for C10: an unset variable and two falsy-parsing values fall
back to the defaults. -/
theorem c10_witness :
    numericEnv none 15000 = 15000 ∧
    jsOrString none "worker1" = "worker1" ∧
    numericEnv (some "") 60000 = 60000 ∧
    numericEnv (some "0") 15000 = 15000 ∧
    parseIntJs "" = none := by
  refine ⟨(And.left ((c10_config_defaults none "" 15000).2.2.1 rfl)),
    (And.right ((c10_config_defaults none "" 15000).2.2.1 rfl)),
    (c10_config_defaults none "" 60000).2.2.2.1 (by decide),
    (c10_config_defaults none "0" 15000).2.2.2.2.1 (by decide),
    by decide⟩
